import Mathlib

/-!
Verification development for the PoC-14 repository: a shallow embedding of
the PDQm Patient search compiler (src/PDQm/app/pdqm_where.py and
src/PDQm/app/main.py) and of the LDAP filter compiler and base-DN resolver
(src/LDAP/main.py), with theorems settling the frozen claims about them.
-/

/-! ## Python date model

Python dates (datetime.date) use the proleptic Gregorian calendar and are
restricted to years 1..9999; constructing a date outside that range raises
ValueError, and adding one day to 9999-12-31 raises OverflowError.
-/

structure PyDate where
  year : Nat
  month : Nat
  day : Nat
deriving Repr, DecidableEq

/-- Gregorian leap-year test, as in Python datetime. -/
def isLeap (y : Nat) : Bool :=
  y % 4 == 0 && (y % 100 != 0 || y % 400 == 0)

/-- Number of days of month m in year y, as in Python datetime. -/
def daysInMonth (y m : Nat) : Nat :=
  if m == 2 then (if isLeap y then 29 else 28)
  else if m == 4 || m == 6 || m == 9 || m == 11 then 30
  else 31

/-- The datetime.date constructor: validates year 1..9999, month 1..12 and
day against the month length; raises ValueError otherwise. -/
def mkDate (y m d : Nat) : Except String PyDate :=
  if 1 ≤ y ∧ y ≤ 9999 ∧ 1 ≤ m ∧ m ≤ 12 ∧ 1 ≤ d ∧ d ≤ daysInMonth y m then
    .ok ⟨y, m, d⟩
  else
    .error "ValueError: date value out of range"

/-- Calendar successor of a date (ignoring the year-9999 ceiling). -/
def plusOneDay (dt : PyDate) : PyDate :=
  if dt.day < daysInMonth dt.year dt.month then ⟨dt.year, dt.month, dt.day + 1⟩
  else if dt.month < 12 then ⟨dt.year, dt.month + 1, 1⟩
  else ⟨dt.year + 1, 1, 1⟩

/-- Python date + timedelta(days=1): raises OverflowError past date.max,
which is 9999-12-31. -/
def dateAddOneDay (dt : PyDate) : Except String PyDate :=
  if dt.year = 9999 ∧ dt.month = 12 ∧ dt.day = 31 then
    .error "OverflowError: date value out of range"
  else
    .ok (plusOneDay dt)

/-! ## The FHIR partial-date regex

pdqm_where.py line 44 compiles the anchored pattern
4 digits, then optionally a dash and 2 digits, then optionally another
dash and 2 digits.  We match it structurally on the character list.
-/

def digitVal (c : Char) : Nat := c.toNat - 48

def num2 (a b : Char) : Nat := 10 * digitVal a + digitVal b

def num4 (a b c d : Char) : Nat :=
  1000 * digitVal a + 100 * digitVal b + 10 * digitVal c + digitVal d

/-- Structural match of the anchored regex from pdqm_where.py line 44;
returns the captured (year, month?, day?) numbers.  Query values are
modelled as newline-free ASCII text: the Python dollar anchor would also
match before one trailing newline and backslash-d would accept non-ASCII
Unicode digits, neither of which occurs in the date strings at issue. -/
def matchDateReL : List Char → Option (Nat × Option Nat × Option Nat)
  | [a, b, c, d] =>
    if a.isDigit && b.isDigit && c.isDigit && d.isDigit then
      some (num4 a b c d, none, none)
    else none
  | [a, b, c, d, h, e, f] =>
    if a.isDigit && b.isDigit && c.isDigit && d.isDigit &&
        h == '-' && e.isDigit && f.isDigit then
      some (num4 a b c d, some (num2 e f), none)
    else none
  | [a, b, c, d, h, e, f, h2, g, i] =>
    if a.isDigit && b.isDigit && c.isDigit && d.isDigit &&
        h == '-' && e.isDigit && f.isDigit &&
        h2 == '-' && g.isDigit && i.isDigit then
      some (num4 a b c d, some (num2 e f), some (num2 g i))
    else none
  | _ => none

def matchDateRe (s : String) : Option (Nat × Option Nat × Option Nat) :=
  matchDateReL s.data

/-- Embeds _parse_fhir_date_bounds (pdqm_where.py lines 46-65): resolve a
FHIR partial date string into a half-open date range, propagating the
ValueError and OverflowError raised by the Python date operations. -/
def _parse_fhir_date_bounds (s : String) : Except String (PyDate × PyDate) :=
  match matchDateRe s with
  | none => .error ("Invalid FHIR date: " ++ s)
  | some (y, none, _) =>
      (mkDate y 1 1).bind fun start =>
      (mkDate (y + 1) 1 1).bind fun stop => .ok (start, stop)
  | some (y, some mo, none) =>
      if ¬ (1 ≤ mo ∧ mo ≤ 12) then
        .error ("Invalid month in FHIR date: " ++ s)
      else
        (mkDate y mo 1).bind fun start =>
        ((if mo = 12 then mkDate (y + 1) 1 1 else mkDate y (mo + 1) 1).bind
          fun stop => .ok (start, stop))
  | some (y, some mo, some d) =>
      (mkDate y mo d).bind fun start =>
      (dateAddOneDay start).bind fun stop => .ok (start, stop)

/-- Forgets the error message of an Except. -/
def exceptToOption : Except ε α → Option α
  | .ok a => some a
  | .error _ => none

/-- Spec-side resolver for the amended claim C1: written from the words of
the spec (section 4.2) amended with the year bounds the Python date type
forces.  Year-only gives the year range when 1 <= Y <= 9998; year-month
gives the month range (December wrapping to January of Y+1) when the month
is 1..12 and the end of the range is still within year 9999; a real
calendar date gives the one-day range unless the date is 9999-12-31; every
other string fails. -/
def resolveSpec (s : String) : Option (PyDate × PyDate) :=
  match matchDateRe s with
  | none => none
  | some (y, none, _) =>
      if 1 ≤ y ∧ y ≤ 9998 then some (⟨y, 1, 1⟩, ⟨y + 1, 1, 1⟩) else none
  | some (y, some mo, none) =>
      if 1 ≤ mo ∧ mo ≤ 12 ∧ 1 ≤ y ∧ y ≤ 9999 ∧ ¬ (y = 9999 ∧ mo = 12) then
        some (⟨y, mo, 1⟩, if mo = 12 then ⟨y + 1, 1, 1⟩ else ⟨y, mo + 1, 1⟩)
      else none
  | some (y, some mo, some d) =>
      if 1 ≤ y ∧ y ≤ 9999 ∧ 1 ≤ mo ∧ mo ≤ 12 ∧ 1 ≤ d ∧ d ≤ daysInMonth y mo ∧
          ¬ (y = 9999 ∧ mo = 12 ∧ d = 31) then
        some (⟨y, mo, d⟩, plusOneDay ⟨y, mo, d⟩)
      else none

/-! ## String helpers shared by both services

Python str.lower is Unicode aware; the values exercised here are Latin-1,
so we model lowering on ASCII and the Latin-1 letter block.
-/

/-- Python str.lower on one character, restricted to Latin-1: maps A-Z and
the accented capitals 0xC0-0xDE (except the multiplication sign 0xD7) to
their lowercase forms 32 code points higher. -/
def pyLowerChar (c : Char) : Char :=
  if 65 ≤ c.toNat ∧ c.toNat ≤ 90 then Char.ofNat (c.toNat + 32)
  else if 192 ≤ c.toNat ∧ c.toNat ≤ 222 ∧ c.toNat ≠ 215 then Char.ofNat (c.toNat + 32)
  else c

/-- Python str.lower (Latin-1 fragment). -/
def pyLower (s : String) : String := ⟨s.data.map pyLowerChar⟩

/-- Python str.strip character class (ASCII whitespace). -/
def isPySpace (c : Char) : Bool :=
  c = ' ' ∨ c = '\t' ∨ c = '\n' ∨ c = '\r' ∨ c = Char.ofNat 11 ∨ c = Char.ofNat 12

/-- Python str.strip. -/
def pyStrip (s : String) : String :=
  ⟨((s.data.dropWhile isPySpace).reverse.dropWhile isPySpace).reverse⟩

/-- Python s.split(sep) for a single-character separator: splitting the
empty string gives one empty segment. -/
def splitOnChar (sep : Char) : List Char → List (List Char)
  | [] => [[]]
  | c :: rest =>
      let r := splitOnChar sep rest
      if c = sep then [] :: r
      else
        match r with
        | h :: t => (c :: h) :: t
        | [] => [[c]]

/-- Python s.split(","). -/
def pySplitComma (s : String) : List String :=
  (splitOnChar ',' s.data).map fun l => ⟨l⟩

/-- Python s[:2]. -/
def take2 (s : String) : String := ⟨s.data.take 2⟩

/-- Python s[2:]. -/
def drop2 (s : String) : String := ⟨s.data.drop 2⟩

/-- Split a list at the first occurrence of a separator character;
returns the part before and the part after (Python split(sep, 1) when the
separator occurs). -/
def splitFirstAt (sep : Char) : List Char → List Char × List Char
  | [] => ([], [])
  | c :: rest =>
      if c = sep then ([], rest)
      else
        let (l, r) := splitFirstAt sep rest
        (c :: l, r)

/-- Python token.split("|", 1) for a token known to contain a pipe. -/
def splitPipe (s : String) : String × String :=
  let (l, r) := splitFirstAt '|' s.data
  (⟨l⟩, ⟨r⟩)

/-- Python "|" in s. -/
def hasPipe (s : String) : Bool := s.data.contains '|'

/-! ## PDQm WHERE builder (src/PDQm/app/pdqm_where.py)

Bind values are strings or dates, as in the Python module.
-/

inductive BindVal where
  | str (s : String)
  | date (d : PyDate)
deriving Repr, DecidableEq

abbrev ParamList := List (String × BindVal)

/-- One comma-separated raw value list, as Python query param values arrive
(a single string or a list of strings for a repeated parameter). -/
inductive QVal where
  | str (s : String)
  | list (l : List String)
deriving Repr

/-- Embeds _flatten_values (pdqm_where.py lines 13-23): flatten the raw
value(s) into comma-split, stripped, non-empty tokens. -/
def splitClean (s : String) : List String :=
  ((pySplitComma s).map pyStrip).filter (fun p => p ≠ "")

def _flatten_values : Option QVal → List String
  | none => []
  | some (.str s) => splitClean s
  | some (.list l) => l.flatMap splitClean

/-- Embeds _add_param (pdqm_where.py lines 25-28). -/
def _add_param (params : ParamList) (v : BindVal) : String × ParamList :=
  let name := "@p" ++ toString params.length
  (name, params ++ [(name, v)])

/-- Embeds _sql_like_prefix (pdqm_where.py lines 30-32). -/
def _sql_like_startswith (column v : String) (params : ParamList) : String × ParamList :=
  let (p, params2) := _add_param params (.str (v ++ "%"))
  (column ++ " COLLATE Latin1_General_CI_AI LIKE " ++ p, params2)

/-- Embeds _sql_like_contains (pdqm_where.py lines 34-36). -/
def _sql_like_contains (column v : String) (params : ParamList) : String × ParamList :=
  let (p, params2) := _add_param params (.str ("%" ++ v ++ "%"))
  (column ++ " COLLATE Latin1_General_CI_AI LIKE " ++ p, params2)

/-- Embeds _sql_equals_ci (pdqm_where.py lines 38-40). -/
def _sql_equals_ci (column v : String) (params : ParamList) : String × ParamList :=
  let (p, params2) := _add_param params (.str v)
  (column ++ " COLLATE Latin1_General_CI_AI = " ++ p, params2)

/-- Embeds _parse_prefix_and_value (pdqm_where.py lines 67-72): the builder
recognizes lt, le, gt, ge, ne and eq, with eq the default. -/
def _parse_pfx_and_value (raw : String) : String × String :=
  if take2 raw = "lt" ∨ take2 raw = "le" ∨ take2 raw = "gt" ∨ take2 raw = "ge" ∨
      take2 raw = "ne" then
    (take2 raw, drop2 raw)
  else if take2 raw = "eq" then ("eq", drop2 raw)
  else ("eq", raw)

/-- Embeds _birthdate_condition (pdqm_where.py lines 74-92). -/
def _birthdate_condition (column raw_value : String) (params : ParamList) :
    Except String (String × ParamList) :=
  let (pfx, datestr) := _parse_pfx_and_value (pyStrip raw_value)
  (_parse_fhir_date_bounds datestr).bind fun se =>
    let (p_start, params1) := _add_param params (.date se.1)
    let (p_end, params2) := _add_param params1 (.date se.2)
    if pfx = "eq" then
      .ok ("(" ++ column ++ " >= " ++ p_start ++ " AND " ++ column ++ " < " ++ p_end ++ ")",
        params2)
    else if pfx = "ne" then
      .ok ("(" ++ column ++ " < " ++ p_start ++ " OR " ++ column ++ " >= " ++ p_end ++ ")",
        params2)
    else if pfx = "lt" then .ok (column ++ " < " ++ p_start, params2)
    else if pfx = "le" then .ok (column ++ " < " ++ p_end, params2)
    else if pfx = "gt" then .ok (column ++ " >= " ++ p_end, params2)
    else if pfx = "ge" then .ok (column ++ " >= " ++ p_start, params2)
    else .error ("Unsupported birthdate prefix: " ++ pfx)

/-- The three family match modes of the builder: default starts-with,
:exact, :contains. -/
inductive FamMode where
  | starts
  | exact
  | contains
deriving Repr, DecidableEq

/-- Column configuration of PDQmWhereBuilder (pdqm_where.py lines 96-105). -/
structure PDQmWhereBuilder where
  family_col : String := "p.FamilyName"
  gender_col : String := "p.GenderCode"
  birthdate_col : String := "p.BirthDate"

/-- The query parameters PDQmWhereBuilder.build consumes. -/
structure BuilderQuery where
  family : Option QVal := none
  familyExact : Option QVal := none
  familyContains : Option QVal := none
  gender : Option QVal := none
  birthdate : Option QVal := none

/-- The family_sets list built in pdqm_where.py lines 112-117: one group per
non-empty family mode key, in the fixed key order. -/
def familySets (q : BuilderQuery) : List (List (FamMode × String)) :=
  (if _flatten_values q.family ≠ [] then
    [(_flatten_values q.family).map (fun v => (FamMode.starts, v))] else []) ++
  (if _flatten_values q.familyExact ≠ [] then
    [(_flatten_values q.familyExact).map (fun v => (FamMode.exact, v))] else []) ++
  (if _flatten_values q.familyContains ≠ [] then
    [(_flatten_values q.familyContains).map (fun v => (FamMode.contains, v))] else [])

/-- One family OR part (pdqm_where.py lines 123-131). -/
def famOrPart (col : String) (m : FamMode) (v : String) (params : ParamList) :
    String × ParamList :=
  match m with
  | .starts => _sql_like_startswith col v params
  | .contains => _sql_like_contains col v params
  | .exact => _sql_equals_ci col v params

/-- The or_parts loop over one family group. -/
def famOrParts (col : String) : List (FamMode × String) → ParamList → List String × ParamList
  | [], params => ([], params)
  | (m, v) :: rest, params =>
      let (sql, params2) := famOrPart col m v params
      let (sqls, params3) := famOrParts col rest params2
      (sql :: sqls, params3)

/-- The group_clauses loop over family groups (pdqm_where.py lines 120-132). -/
def famGroups (col : String) : List (List (FamMode × String)) → ParamList →
    List String × ParamList
  | [], params => ([], params)
  | g :: rest, params =>
      let (parts, params2) := famOrParts col g params
      let (clauses, params3) := famGroups col rest params2
      (("(" ++ String.intercalate " OR " parts ++ ")") :: clauses, params3)

/-- The gender or_parts loop (pdqm_where.py lines 138-140). -/
def genderParts (col : String) : List String → ParamList → List String × ParamList
  | [], params => ([], params)
  | g :: rest, params =>
      let (sql, params2) := _sql_equals_ci col (pyLower g) params
      let (sqls, params3) := genderParts col rest params2
      (sql :: sqls, params3)

/-- The birthdate or_parts loop (pdqm_where.py lines 146-148). -/
def birthParts (col : String) : List String → ParamList →
    Except String (List String × ParamList)
  | [], params => .ok ([], params)
  | bd :: rest, params =>
      (_birthdate_condition col bd params).bind fun sp =>
        (birthParts col rest sp.2).bind fun sps =>
          .ok (sp.1 :: sps.1, sps.2)

/-- Embeds PDQmWhereBuilder.build (pdqm_where.py lines 107-152). -/
def PDQmWhereBuilder.build (b : PDQmWhereBuilder) (q : BuilderQuery) :
    Except String (String × ParamList) :=
  let sets := familySets q
  let fam := famGroups b.family_col sets []
  let and1 : List String :=
    if sets ≠ [] then ["(" ++ String.intercalate " AND " fam.1 ++ ")"] else []
  let gvals := _flatten_values q.gender
  let gen := genderParts b.gender_col gvals fam.2
  let and2 : List String :=
    if gvals ≠ [] then ["(" ++ String.intercalate " OR " gen.1 ++ ")"] else []
  let bvals := _flatten_values q.birthdate
  (birthParts b.birthdate_col bvals gen.2).bind fun bps =>
    let and3 : List String :=
      if bvals ≠ [] then ["(" ++ String.intercalate " OR " bps.1 ++ ")"] else []
    let and_clauses := and1 ++ and2 ++ and3
    .ok ((if and_clauses ≠ [] then "WHERE " ++ String.intercalate " AND " and_clauses
          else ""), bps.2)

/-! ## Patient search endpoint (src/PDQm/app/main.py)

SQLAlchemy filter expressions are modelled as a condition tree over the
PatientModel column names.
-/

inductive Cond where
  | colEq (col v : String)
  | lowerEq (col v : String)
  | lowerLike (col pat : String)
  | dateGe (col : String) (d : PyDate)
  | dateLt (col : String) (d : PyDate)
  | andN (cs : List Cond)
  | orN (cs : List Cond)

/-- Embeds _split_or_list (main.py lines 213-218): comma split keeping any
non-empty segment (no trimming). -/
def _split_or_list (value : String) : List String :=
  (pySplitComma value).filter (fun v => v ≠ "")

/-- The _id filter section (main.py lines 308-311). -/
def idFilters (occs : List String) : List Cond :=
  occs.flatMap fun v =>
    let ors := (_split_or_list v).map fun x => Cond.colEq "id" x
    if ors.isEmpty then [] else [Cond.orN ors]

/-- The gender filter section (main.py lines 314-317). -/
def genderFilters (occs : List String) : List Cond :=
  occs.flatMap fun v =>
    let ors := (_split_or_list v).map fun x => Cond.lowerEq "gender" (pyLower (pyStrip x))
    if ors.isEmpty then [] else [Cond.orN ors]

/-- The family filter section (main.py lines 320-330); each occurrence
carries whether its parameter name ended in :exact. -/
def famFilters (occs : List (Bool × String)) : List Cond :=
  occs.flatMap fun ev =>
    let ors := (_split_or_list ev.2).map fun token =>
      if ev.1 then Cond.lowerEq "name_family" (pyLower token)
      else Cond.lowerLike "name_family" (pyLower token ++ "%")
    if ors.isEmpty then [] else [Cond.orN ors]

/-- The conditions one telecom token contributes (main.py lines 395-415). -/
def telecomTokenConds (token : String) : List Cond :=
  if hasPipe token then
    let sv := splitPipe token
    let system := pyLower (pyStrip sv.1)
    let value := pyLower (pyStrip sv.2)
    if system = "phone" then
      [Cond.lowerLike "tel_home" ("%" ++ value ++ "%"),
       Cond.lowerLike "tel_work" ("%" ++ value ++ "%"),
       Cond.lowerLike "tel_mobile" ("%" ++ value ++ "%")]
    else if system = "email" then
      [Cond.lowerLike "email" ("%" ++ value ++ "%")]
    else []
  else
    let t := pyLower (pyStrip token)
    [Cond.lowerLike "tel_home" ("%" ++ t ++ "%"),
     Cond.lowerLike "tel_work" ("%" ++ t ++ "%"),
     Cond.lowerLike "tel_mobile" ("%" ++ t ++ "%"),
     Cond.lowerLike "email" ("%" ++ t ++ "%")]

/-- The telecom filter section (main.py lines 393-417). -/
def telecomFilters (occs : List String) : List Cond :=
  occs.flatMap fun v =>
    let g := (_split_or_list v).flatMap telecomTokenConds
    if g.isEmpty then [] else [Cond.orN g]

/-- Python [x.strip().lower() for x in s.split(",") if x.strip()]. -/
def cleanTokens (s : String) : List String :=
  ((pySplitComma s).filter (fun x => pyStrip x ≠ "")).map (fun x => pyLower (pyStrip x))

/-- The or_group one identifier occurrence contributes
(main.py lines 424-451). -/
def identifierOrGroup (v : String) : List Cond :=
  if hasPipe v then
    let lr := splitPipe v
    let systems := cleanTokens lr.1
    let values := cleanTokens lr.2
    if values ≠ [] then
      if systems ≠ [] then
        values.flatMap fun val =>
          systems.map fun sys => Cond.lowerEq "identifier" (sys ++ "|" ++ val)
      else
        values.flatMap fun val =>
          [Cond.lowerEq "identifier" val, Cond.lowerLike "identifier" ("%|" ++ val)]
    else
      if systems ≠ [] then
        systems.map fun sys => Cond.lowerLike "identifier" (sys ++ "|%")
      else []
  else
    (cleanTokens v).flatMap fun val =>
      [Cond.lowerEq "identifier" val, Cond.lowerLike "identifier" ("%|" ++ val)]

/-- The identifier filter section (main.py lines 424-451). -/
def identifierFilters (occs : List String) : List Cond :=
  occs.flatMap fun v =>
    let g := identifierOrGroup v
    if g.isEmpty then [] else [Cond.orN g]

/-- Embeds _parse_date_with_prefix (main.py lines 241-248): the endpoint
recognizes only ge, le, gt, lt, with eq the default. -/
def _parse_date_with_pfx (s : String) : String × String :=
  if 2 ≤ s.data.length ∧ (take2 s = "ge" ∨ take2 s = "le" ∨ take2 s = "gt" ∨
      take2 s = "lt") then
    (take2 s, drop2 s)
  else ("eq", s)

/-- The birthdate filter section (main.py lines 454-472): one condition per
occurrence; an unparsable date aborts the whole search with a 400. -/
def birthdateFilters : List String → Except String (List Cond)
  | [] => .ok []
  | v :: rest =>
      let pd := _parse_date_with_pfx (pyStrip v)
      match _parse_fhir_date_bounds pd.2 with
      | .error _ => .error ("Invalid birthdate: " ++ v)
      | .ok se =>
          (birthdateFilters rest).bind fun cs =>
            let this : List Cond :=
              if pd.1 = "eq" then
                [Cond.andN [Cond.dateGe "birthdate" se.1, Cond.dateLt "birthdate" se.2]]
              else if pd.1 = "ge" then [Cond.dateGe "birthdate" se.1]
              else if pd.1 = "le" then [Cond.dateLt "birthdate" se.2]
              else if pd.1 = "gt" then [Cond.dateGe "birthdate" se.2]
              else if pd.1 = "lt" then [Cond.dateLt "birthdate" se.1]
              else []
            .ok (this ++ cs)

/-- The search parameters of the Patient search endpoint modelled here (the
remaining parameters, given and the address family, follow the same
per-occurrence pattern and contribute nothing when absent). -/
structure SearchRequest where
  idOccs : List String := []
  genderOccs : List String := []
  familyOccs : List (Bool × String) := []
  telecomOccs : List String := []
  identifierOccs : List String := []
  birthdateOccs : List String := []

/-- The filters list the endpoint accumulates, in source order
(main.py lines 305-472). -/
def patientFilters (r : SearchRequest) : Except String (List Cond) :=
  (birthdateFilters r.birthdateOccs).map fun bd =>
    idFilters r.idOccs ++ genderFilters r.genderOccs ++ famFilters r.familyOccs ++
      telecomFilters r.telecomOccs ++ identifierFilters r.identifierOccs ++ bd

/-- The WHERE clause of the final SELECT (main.py lines 475-477): absent
when no filters were accumulated, otherwise the conjunction of all filters. -/
def patientWhere (r : SearchRequest) : Except String (Option Cond) :=
  (patientFilters r).map fun fs => if fs.isEmpty then none else some (Cond.andN fs)

/-! ## Collation semantics

The builder emits comparisons under the SQL Server collation
Latin1_General_CI_AI; the endpoint compares lower()-ed values.  We model
the meaning of both comparison forms on the Latin-1 letter block: CI folds
case, AI additionally folds accents.
-/

/-- Accent folding on lowercase Latin-1 letters (the AI part of the
collation): accented vowels, c-cedilla, n-tilde and y fold to their base
letter. -/
def accentFoldChar (c : Char) : Char :=
  let n := c.toNat
  if 224 ≤ n ∧ n ≤ 229 then 'a'
  else if n = 231 then 'c'
  else if 232 ≤ n ∧ n ≤ 235 then 'e'
  else if 236 ≤ n ∧ n ≤ 239 then 'i'
  else if n = 241 then 'n'
  else if 242 ≤ n ∧ n ≤ 246 then 'o'
  else if 249 ≤ n ∧ n ≤ 252 then 'u'
  else if n = 253 ∨ n = 255 then 'y'
  else c

/-- Modelled semantics of equality under COLLATE Latin1_General_CI_AI, the
collation the builder emits: case-insensitive and accent-insensitive. -/
def latin1CiAiEq (a b : String) : Bool :=
  a.data.map (fun c => accentFoldChar (pyLowerChar c)) ==
    b.data.map (fun c => accentFoldChar (pyLowerChar c))

/-- Modelled semantics of the lower() = lower() comparisons the endpoint
emits: case-insensitive, accent-sensitive. -/
def pyLowerEq (a b : String) : Bool := pyLower a == pyLower b

/-! ## LDAP filter compiler and base DN resolver (src/LDAP/main.py) -/

/-- Python str.replace for a single-character pattern: every occurrence is
replaced by the replacement list. -/
def replaceChar (c : Char) (rep : List Char) : List Char → List Char
  | [] => []
  | x :: rest => (if x = c then rep else [x]) ++ replaceChar c rep rest

/-- Embeds _escape_ldap_filter (LDAP/main.py lines 343-350): the five
replacements applied in source order, backslash first. -/
def _escape_ldap_filter (value : String) : String :=
  ⟨replaceChar (Char.ofNat 0) ['\\', '0', '0']
    (replaceChar ')' ['\\', '2', '9']
      (replaceChar '(' ['\\', '2', '8']
        (replaceChar '*' ['\\', '2', 'a']
          (replaceChar '\\' ['\\', '5', 'c'] value.data))))⟩

/-- The per-character RFC 4515 escape map named by the claim. -/
def escChar (c : Char) : List Char :=
  if c = '\\' then ['\\', '5', 'c']
  else if c = '*' then ['\\', '2', 'a']
  else if c = '(' then ['\\', '2', '8']
  else if c = ')' then ['\\', '2', '9']
  else if c = Char.ofNat 0 then ['\\', '0', '0']
  else [c]

/-- Embeds _make_filter (LDAP/main.py lines 352-359). -/
def _make_filter (q scope : String) : String :=
  let s := _escape_ldap_filter (pyStrip q)
  if s = "" then
    if scope = "person" then "(&(objectClass=inetOrgPerson))" else "(objectClass=*)"
  else if scope = "person" then
    "(&(objectClass=inetOrgPerson)(|(cn=*" ++ s ++ "*)(sn=*" ++ s ++ "*)(givenName=*" ++
      s ++ "*)(mail=*" ++ s ++ "*)))"
  else
    "(&(objectClass=*)(|(o=*" ++ s ++ "*)(ou=*" ++ s ++ "*)(cn=*" ++ s ++ "*)(mail=*" ++
      s ++ "*)))"

/-- Python truthiness of the optional cached base DN (None and the empty
string are falsy). -/
def pyTruthy : Option String → Bool
  | none => false
  | some s => s ≠ ""

/-- Embeds _discover_base_dn (LDAP/main.py lines 302-322).  The RootDSE
answer is modelled as none when the search returned no results, else the
list of namingContexts values of the first result. -/
def _discover_base_dn (results : Option (List String)) : Option String :=
  match results with
  | none => none
  | some vals =>
      match vals with
      | [] => none
      | [v] => some v
      | _ :: _ :: _ =>
          some ((vals.find? (fun v => pyLower v = "dc=hpd")).getD (vals.headD ""))

/-- The discovered-base cache starts unset (LDAP/main.py line 89). -/
def initialDiscoveredBase : Option String := none

/-- Embeds _resolve_base_root (LDAP/main.py lines 324-333) as a function of
the configured base DN, the current cache and the RootDSE answer; returns
the outcome together with the new cache state. -/
def _resolve_base_root (baseDn : String) (cache : Option String)
    (results : Option (List String)) : Except String String × Option String :=
  if baseDn ≠ "" ∧ pyLower baseDn ≠ "auto" then (.ok baseDn, cache)
  else if pyTruthy cache then (.ok (cache.getD ""), cache)
  else
    let disc := _discover_base_dn results
    if pyTruthy disc then (.ok (disc.getD ""), disc)
    else (.error "Kon namingContexts (root) niet bepalen.", disc)

/-! ## Shape of a builder query

For the noninterference claim we define the shape of a builder query (the
per-key counts of surviving values and the parsed date prefixes) and a
claim-side function computing the SQL text from the shape alone.
-/

def famVal : FamMode → String → BindVal
  | .starts, v => .str (v ++ "%")
  | .contains, v => .str ("%" ++ v ++ "%")
  | .exact, v => .str v

def famSqlAt (col : String) (m : FamMode) (n : Nat) : String :=
  match m with
  | .exact => col ++ " COLLATE Latin1_General_CI_AI = " ++ ("@p" ++ toString n)
  | _ => col ++ " COLLATE Latin1_General_CI_AI LIKE " ++ ("@p" ++ toString n)

def famOrPartsSql (col : String) : List FamMode → Nat → List String
  | [], _ => []
  | m :: rest, n => famSqlAt col m n :: famOrPartsSql col rest (n + 1)

def famGroupsSql (col : String) : List (List FamMode) → Nat → List String
  | [], _ => []
  | g :: rest, n =>
      ("(" ++ String.intercalate " OR " (famOrPartsSql col g n) ++ ")") ::
        famGroupsSql col rest (n + g.length)

def genderPartsSql (col : String) : Nat → Nat → List String
  | 0, _ => []
  | k + 1, n =>
      (col ++ " COLLATE Latin1_General_CI_AI = " ++ ("@p" ++ toString n)) ::
        genderPartsSql col k (n + 1)

def birthSqlAt (col pfx : String) (n : Nat) : String :=
  if pfx = "eq" then
    "(" ++ col ++ " >= " ++ ("@p" ++ toString n) ++ " AND " ++ col ++ " < " ++
      ("@p" ++ toString (n + 1)) ++ ")"
  else if pfx = "ne" then
    "(" ++ col ++ " < " ++ ("@p" ++ toString n) ++ " OR " ++ col ++ " >= " ++
      ("@p" ++ toString (n + 1)) ++ ")"
  else if pfx = "lt" then col ++ " < " ++ ("@p" ++ toString n)
  else if pfx = "le" then col ++ " < " ++ ("@p" ++ toString (n + 1))
  else if pfx = "gt" then col ++ " >= " ++ ("@p" ++ toString (n + 1))
  else if pfx = "ge" then col ++ " >= " ++ ("@p" ++ toString n)
  else ""

def birthPartsSql (col : String) : List String → Nat → List String
  | [], _ => []
  | p :: rest, n => birthSqlAt col p n :: birthPartsSql col rest (n + 2)

def pfxOf (v : String) : String := (_parse_pfx_and_value (pyStrip v)).1

structure BuildShape where
  famStarts : Nat
  famExact : Nat
  famContains : Nat
  gender : Nat
  birthPfxs : List String
deriving Repr, DecidableEq

def buildShape (q : BuilderQuery) : BuildShape where
  famStarts := (_flatten_values q.family).length
  famExact := (_flatten_values q.familyExact).length
  famContains := (_flatten_values q.familyContains).length
  gender := (_flatten_values q.gender).length
  birthPfxs := (_flatten_values q.birthdate).map pfxOf

def famModeGroupsOf (sh : BuildShape) : List (List FamMode) :=
  (if sh.famStarts ≠ 0 then [List.replicate sh.famStarts FamMode.starts] else []) ++
  (if sh.famExact ≠ 0 then [List.replicate sh.famExact FamMode.exact] else []) ++
  (if sh.famContains ≠ 0 then [List.replicate sh.famContains FamMode.contains] else [])

def sqlOfShape (b : PDQmWhereBuilder) (sh : BuildShape) : String :=
  let fmg := famModeGroupsOf sh
  let famCount := sh.famStarts + sh.famExact + sh.famContains
  let and1 :=
    if fmg ≠ [] then
      ["(" ++ String.intercalate " AND " (famGroupsSql b.family_col fmg 0) ++ ")"]
    else []
  let and2 :=
    if sh.gender ≠ 0 then
      ["(" ++ String.intercalate " OR " (genderPartsSql b.gender_col sh.gender famCount) ++ ")"]
    else []
  let and3 :=
    if sh.birthPfxs ≠ [] then
      ["(" ++ String.intercalate " OR "
          (birthPartsSql b.birthdate_col sh.birthPfxs (famCount + sh.gender)) ++ ")"]
    else []
  let acs := and1 ++ and2 ++ and3
  if acs ≠ [] then "WHERE " ++ String.intercalate " AND " acs else ""

def WellNamed (ps : ParamList) : Prop :=
  ps.map Prod.fst = (List.range ps.length).map (fun i => "@p" ++ toString i)

/-! ## Shared lemmas -/

lemma ebind_ok (a : α) (f : α → Except String β) : (Except.ok a).bind f = f a := rfl

lemma ebind_error (e : String) (f : α → Except String β) :
    (Except.error e : Except String α).bind f = .error e := rfl

lemma one_le_daysInMonth (y m : Nat) : 1 ≤ daysInMonth y m := by
  unfold daysInMonth
  split_ifs <;> norm_num

lemma mkDate_day_one (y m : Nat) (h1 : 1 ≤ m) (h2 : m ≤ 12) :
    mkDate y m 1 =
      if 1 ≤ y ∧ y ≤ 9999 then .ok ⟨y, m, 1⟩
      else .error "ValueError: date value out of range" := by
  unfold mkDate
  have := one_le_daysInMonth y m
  split_ifs <;> simp_all

/-! ## C1: partial-date resolution -/

/-- C1, counterexample: the input 9999 matches the YYYY shape, so by the
claim the resolver must return the range from Jan 1 9999 to Jan 1 10000;
the code instead fails, because Python dates stop at year 9999. -/
theorem C1_year_9999_fails :
    matchDateRe "9999" = some (9999, none, none) ∧
    _parse_fhir_date_bounds "9999" = .error "ValueError: date value out of range" := by
  constructor <;> rfl

/-- C1 as amended: partial-date resolution returns exactly the ranges the
claim describes, except that resolution also fails when the range does not
fit in Python date years 1..9999: year 0000 and year 9999 fail in YYYY
form, December 9999 fails in YYYY-MM form, and 9999-12-31 fails in
YYYY-MM-DD form.  Stated as: the resolver agrees with resolveSpec, the
range function written from the amended claim, on every string. -/
theorem C1_partial_date_resolution_amended (s : String) :
    exceptToOption (_parse_fhir_date_bounds s) = resolveSpec s := by
  unfold _parse_fhir_date_bounds resolveSpec
  cases h : matchDateRe s with
  | none => rfl
  | some t =>
    obtain ⟨y, mo?, d?⟩ := t
    cases mo? with
    | none =>
      dsimp only
      rw [mkDate_day_one y 1 (by norm_num) (by norm_num),
          mkDate_day_one (y + 1) 1 (by norm_num) (by norm_num)]
      by_cases hy : 1 ≤ y ∧ y ≤ 9998
      · rw [if_pos (by omega : 1 ≤ y ∧ y ≤ 9999), ebind_ok,
            if_pos (by omega : 1 ≤ y + 1 ∧ y + 1 ≤ 9999), ebind_ok, if_pos hy]
        rfl
      · rw [if_neg hy]
        by_cases hy1 : 1 ≤ y ∧ y ≤ 9999
        · rw [if_pos hy1, ebind_ok, if_neg (by omega : ¬ (1 ≤ y + 1 ∧ y + 1 ≤ 9999)),
              ebind_error]
          rfl
        · rw [if_neg hy1, ebind_error]
          rfl
    | some mo =>
      cases d? with
      | none =>
        dsimp only
        by_cases hmo : 1 ≤ mo ∧ mo ≤ 12
        · rw [if_neg (by simpa using hmo), mkDate_day_one y mo hmo.1 hmo.2]
          by_cases hy : 1 ≤ y ∧ y ≤ 9999
          · rw [if_pos hy, ebind_ok]
            by_cases h12 : mo = 12
            · subst h12
              rw [if_pos rfl, mkDate_day_one (y + 1) 1 (by norm_num) (by norm_num)]
              by_cases hy2 : y = 9999
              · subst hy2
                rw [if_neg (by omega), ebind_error, if_neg (by omega)]
                rfl
              · rw [if_pos (by omega), ebind_ok, if_pos (by omega), if_pos rfl]
                rfl
            · rw [if_neg h12, mkDate_day_one y (mo + 1) (by omega) (by omega),
                  if_pos hy, ebind_ok, if_pos (by omega), if_neg h12]
              rfl
          · rw [if_neg hy, ebind_error, if_neg (by omega)]
            rfl
        · rw [if_pos (by simpa using hmo), if_neg (by omega)]
          rfl
      | some d =>
        dsimp only
        unfold mkDate dateAddOneDay
        by_cases hv : 1 ≤ y ∧ y ≤ 9999 ∧ 1 ≤ mo ∧ mo ≤ 12 ∧ 1 ≤ d ∧ d ≤ daysInMonth y mo
        · rw [if_pos hv, ebind_ok]
          dsimp only
          by_cases hmax : y = 9999 ∧ mo = 12 ∧ d = 31
          · rw [if_pos hmax, ebind_error, if_neg (by omega)]
            rfl
          · rw [if_neg hmax, ebind_ok, if_pos (by omega)]
            rfl
        · rw [if_neg hv, ebind_error, if_neg (by omega)]
          rfl

/-! ## C2: birthdate prefixes -/

/-- C2, counterexample: the Patient search endpoint does not recognize the
ne prefix.  The value ne2000 is parsed by the endpoint as an eq date whose
date string is ne2000, so the search fails with an invalid-date error,
while the builder module compiles the very same value to the ne condition. -/
theorem C2_endpoint_rejects_ne :
    _parse_date_with_pfx "ne2000" = ("eq", "ne2000") ∧
    birthdateFilters ["ne2000"] = .error "Invalid birthdate: ne2000" ∧
    _birthdate_condition "p.BirthDate" "ne2000" [] =
      .ok ("(p.BirthDate < @p0 OR p.BirthDate >= @p1)",
        [("@p0", .date ⟨2000, 1, 1⟩), ("@p1", .date ⟨2001, 1, 1⟩)]) :=
  ⟨rfl, rfl, rfl⟩

/-- C2 as amended: given the resolved range [start, stop), the builder
condition compiler maps eq, ne, lt, le, gt, ge exactly as the claim states,
binding start and stop as the next two positional parameters; the Patient
search endpoint, however, recognizes only eq, ge, le, gt and lt (ne is not
recognized there), and maps those five as the claim states. -/
theorem C2_birthdate_pfx_conditions_amended (col raw datestr pfx : String)
    (params : ParamList) (start stop : PyDate)
    (hp : _parse_pfx_and_value (pyStrip raw) = (pfx, datestr))
    (hb : _parse_fhir_date_bounds datestr = .ok (start, stop)) :
    (pfx = "eq" → _birthdate_condition col raw params =
      .ok ("(" ++ col ++ " >= " ++ ("@p" ++ toString params.length) ++ " AND " ++ col ++
            " < " ++ ("@p" ++ toString (params.length + 1)) ++ ")",
        params ++ [("@p" ++ toString params.length, .date start),
                   ("@p" ++ toString (params.length + 1), .date stop)])) ∧
    (pfx = "ne" → _birthdate_condition col raw params =
      .ok ("(" ++ col ++ " < " ++ ("@p" ++ toString params.length) ++ " OR " ++ col ++
            " >= " ++ ("@p" ++ toString (params.length + 1)) ++ ")",
        params ++ [("@p" ++ toString params.length, .date start),
                   ("@p" ++ toString (params.length + 1), .date stop)])) ∧
    (pfx = "lt" → _birthdate_condition col raw params =
      .ok (col ++ " < " ++ ("@p" ++ toString params.length),
        params ++ [("@p" ++ toString params.length, .date start),
                   ("@p" ++ toString (params.length + 1), .date stop)])) ∧
    (pfx = "le" → _birthdate_condition col raw params =
      .ok (col ++ " < " ++ ("@p" ++ toString (params.length + 1)),
        params ++ [("@p" ++ toString params.length, .date start),
                   ("@p" ++ toString (params.length + 1), .date stop)])) ∧
    (pfx = "gt" → _birthdate_condition col raw params =
      .ok (col ++ " >= " ++ ("@p" ++ toString (params.length + 1)),
        params ++ [("@p" ++ toString params.length, .date start),
                   ("@p" ++ toString (params.length + 1), .date stop)])) ∧
    (pfx = "ge" → _birthdate_condition col raw params =
      .ok (col ++ " >= " ++ ("@p" ++ toString params.length),
        params ++ [("@p" ++ toString params.length, .date start),
                   ("@p" ++ toString (params.length + 1), .date stop)])) ∧
    (∀ v pfx2 ds2 (s2 e2 : PyDate), _parse_date_with_pfx (pyStrip v) = (pfx2, ds2) →
      _parse_fhir_date_bounds ds2 = .ok (s2, e2) →
      birthdateFilters [v] = .ok
        (if pfx2 = "eq" then
          [Cond.andN [Cond.dateGe "birthdate" s2, Cond.dateLt "birthdate" e2]]
        else if pfx2 = "ge" then [Cond.dateGe "birthdate" s2]
        else if pfx2 = "le" then [Cond.dateLt "birthdate" e2]
        else if pfx2 = "gt" then [Cond.dateGe "birthdate" e2]
        else if pfx2 = "lt" then [Cond.dateLt "birthdate" s2]
        else [])) ∧
    (∀ s : String, (_parse_date_with_pfx s).1 = "eq" ∨ (_parse_date_with_pfx s).1 = "ge" ∨
      (_parse_date_with_pfx s).1 = "le" ∨ (_parse_date_with_pfx s).1 = "gt" ∨
      (_parse_date_with_pfx s).1 = "lt") := by
  have hmain : _birthdate_condition col raw params =
      (let p0 := "@p" ++ toString params.length
       let p1 := "@p" ++ toString (params.length + 1)
       let out := params ++ [(p0, BindVal.date start), (p1, BindVal.date stop)]
       if pfx = "eq" then
        .ok ("(" ++ col ++ " >= " ++ p0 ++ " AND " ++ col ++ " < " ++ p1 ++ ")", out)
       else if pfx = "ne" then
        .ok ("(" ++ col ++ " < " ++ p0 ++ " OR " ++ col ++ " >= " ++ p1 ++ ")", out)
       else if pfx = "lt" then .ok (col ++ " < " ++ p0, out)
       else if pfx = "le" then .ok (col ++ " < " ++ p1, out)
       else if pfx = "gt" then .ok (col ++ " >= " ++ p1, out)
       else if pfx = "ge" then .ok (col ++ " >= " ++ p0, out)
       else .error ("Unsupported birthdate prefix: " ++ pfx)) := by
    unfold _birthdate_condition
    rw [hp]
    dsimp only
    rw [hb, ebind_ok]
    simp only [_add_param, List.length_append, List.append_assoc]
    rfl
  refine ⟨fun h => ?_, fun h => ?_, fun h => ?_, fun h => ?_, fun h => ?_, fun h => ?_,
    ?_, ?_⟩
  · subst h; rw [hmain]; rfl
  · subst h; rw [hmain]; rfl
  · subst h; rw [hmain]; rfl
  · subst h; rw [hmain]; rfl
  · subst h; rw [hmain]; rfl
  · subst h; rw [hmain]; rfl
  · intro v pfx2 ds2 s2 e2 hp2 hb2
    unfold birthdateFilters
    rw [hp2]
    dsimp only
    rw [hb2]
    dsimp only
    rw [show birthdateFilters [] = .ok [] from rfl, ebind_ok]
    simp only [List.append_nil]
  · intro s
    unfold _parse_date_with_pfx
    split_ifs with h
    · rcases h.2 with h2 | h2 | h2 | h2 <;> simp [h2]
    · simp

/-- C2 witness: the amended theorem applied to the value ne1980 against
column C with an empty parameter list. -/
theorem C2_witness :
    _birthdate_condition "C" "ne1980" [] =
      .ok ("(C < @p0 OR C >= @p1)",
        [("@p0", .date ⟨1980, 1, 1⟩), ("@p1", .date ⟨1981, 1, 1⟩)]) :=
  (C2_birthdate_pfx_conditions_amended "C" "ne1980" "1980" "ne" [] ⟨1980, 1, 1⟩
    ⟨1981, 1, 1⟩ rfl rfl).2.1 rfl

/-! ## Builder structure lemmas -/

lemma wellNamed_nil : WellNamed [] := rfl

lemma wellNamed_add (ps : ParamList) (v : BindVal) (h : WellNamed ps) :
    WellNamed (ps ++ [("@p" ++ toString ps.length, v)]) := by
  unfold WellNamed at h ⊢
  rw [List.map_append, List.length_append, h]
  simp [List.range_succ]

lemma famOrPart_spec (col : String) (m : FamMode) (v : String) (ps : ParamList) :
    famOrPart col m v ps =
      (famSqlAt col m ps.length, ps ++ [("@p" ++ toString ps.length, famVal m v)]) := by
  cases m <;> rfl

lemma famOrParts_spec (col : String) (g : List (FamMode × String)) :
    ∀ ps : ParamList,
      (famOrParts col g ps).1 = famOrPartsSql col (g.map Prod.fst) ps.length ∧
      (famOrParts col g ps).2.length = ps.length + g.length ∧
      (WellNamed ps → WellNamed (famOrParts col g ps).2) := by
  induction g with
  | nil => intro ps; exact ⟨rfl, by simp [famOrParts], fun h => h⟩
  | cons mv rest ih =>
    intro ps
    obtain ⟨m, v⟩ := mv
    unfold famOrParts
    rw [famOrPart_spec]
    dsimp only
    obtain ⟨ih1, ih2, ih3⟩ := ih (ps ++ [("@p" ++ toString ps.length, famVal m v)])
    refine ⟨?_, ?_, ?_⟩
    · rw [ih1]
      simp only [List.map_cons, famOrPartsSql, List.length_append, List.length_cons,
        List.length_nil]
    · rw [ih2]
      simp
      try omega
    · intro hw
      exact ih3 (wellNamed_add ps _ hw)

lemma famGroups_spec (col : String) (sets : List (List (FamMode × String))) :
    ∀ ps : ParamList,
      (famGroups col sets ps).1 =
        famGroupsSql col (sets.map (fun g => g.map Prod.fst)) ps.length ∧
      (famGroups col sets ps).2.length = ps.length + (sets.map List.length).sum ∧
      (WellNamed ps → WellNamed (famGroups col sets ps).2) := by
  induction sets with
  | nil => intro ps; exact ⟨rfl, by simp [famGroups], fun h => h⟩
  | cons g rest ih =>
    intro ps
    unfold famGroups
    obtain ⟨h1, h2, h3⟩ := famOrParts_spec col g ps
    obtain ⟨ih1, ih2, ih3⟩ := ih (famOrParts col g ps).2
    dsimp only
    refine ⟨?_, ?_, ?_⟩
    · rw [ih1, h1, h2]
      simp only [List.map_cons, famGroupsSql, List.length_map]
    · rw [ih2, h2]
      simp only [List.map_cons, List.sum_cons]
      omega
    · intro hw
      exact ih3 (h3 hw)

lemma genderParts_spec (col : String) (vs : List String) :
    ∀ ps : ParamList,
      (genderParts col vs ps).1 = genderPartsSql col vs.length ps.length ∧
      (genderParts col vs ps).2.length = ps.length + vs.length ∧
      (WellNamed ps → WellNamed (genderParts col vs ps).2) := by
  induction vs with
  | nil => intro ps; exact ⟨rfl, by simp [genderParts], fun h => h⟩
  | cons g rest ih =>
    intro ps
    unfold genderParts
    dsimp only [_sql_equals_ci, _add_param]
    obtain ⟨ih1, ih2, ih3⟩ := ih (ps ++ [("@p" ++ toString ps.length, .str (pyLower g))])
    refine ⟨?_, ?_, ?_⟩
    · rw [ih1]
      simp only [List.length_cons, List.length_append, List.length_nil, genderPartsSql]
    · rw [ih2]
      simp
      try omega
    · intro hw
      exact ih3 (wellNamed_add ps _ hw)

lemma _birthdate_condition_spec (col v : String) (ps : ParamList)
    (pr : String × ParamList) (h : _birthdate_condition col v ps = .ok pr) :
    pr.1 = birthSqlAt col (pfxOf v) ps.length ∧
    ∃ start stop : PyDate,
      _parse_fhir_date_bounds ((_parse_pfx_and_value (pyStrip v)).2) = .ok (start, stop) ∧
      pr.2 = ps ++ [("@p" ++ toString ps.length, .date start),
                    ("@p" ++ toString (ps.length + 1), .date stop)] := by
  rcases hpv : _parse_pfx_and_value (pyStrip v) with ⟨pfx, ds⟩
  unfold _birthdate_condition at h
  rw [hpv] at h
  dsimp only at h
  unfold pfxOf birthSqlAt
  rw [hpv]
  dsimp only
  cases hb : _parse_fhir_date_bounds ds with
  | error e =>
    rw [hb, ebind_error] at h
    exact absurd h (by simp)
  | ok se =>
    rw [hb, ebind_ok] at h
    simp only [_add_param, List.length_append, List.length_cons, List.length_nil,
      List.append_assoc, List.cons_append, List.nil_append, Nat.zero_add, Nat.add_zero] at h
    split_ifs at h ⊢ <;> injection h with h2 <;>
      exact ⟨(congrArg Prod.fst h2).symm, se.1, se.2, by simp [hb],
        (congrArg Prod.snd h2).symm⟩

lemma birthParts_spec (col : String) (vs : List String) :
    ∀ (ps : ParamList) (pr : List String × ParamList), birthParts col vs ps = .ok pr →
      pr.1 = birthPartsSql col (vs.map pfxOf) ps.length ∧
      pr.2.length = ps.length + 2 * vs.length ∧
      (WellNamed ps → WellNamed pr.2) := by
  induction vs with
  | nil =>
    intro ps pr h
    injection h with h2
    rw [← h2]
    exact ⟨rfl, by simp, fun hw => hw⟩
  | cons v rest ih =>
    intro ps pr h
    unfold birthParts at h
    cases hc : _birthdate_condition col v ps with
    | error e =>
      rw [hc, ebind_error] at h
      exact absurd h (by simp)
    | ok sp =>
      rw [hc, ebind_ok] at h
      cases hr : birthParts col rest sp.2 with
      | error e =>
        rw [hr, ebind_error] at h
        exact absurd h (by simp)
      | ok sps =>
        rw [hr, ebind_ok] at h
        injection h with h2
        obtain ⟨c1, start, stop, hparse, c2⟩ := _birthdate_condition_spec col v ps sp hc
        obtain ⟨r1, r2, r3⟩ := ih sp.2 sps hr
        have hlen : sp.2.length = ps.length + 2 := by rw [c2]; simp
        refine ⟨?_, ?_, ?_⟩
        · rw [← h2]
          dsimp only
          rw [r1, c1, hlen]
          simp only [List.map_cons, birthPartsSql]
        · rw [← h2]
          dsimp only
          rw [r2, hlen, List.length_cons]
          ring
        · intro hw
          rw [← h2]
          dsimp only
          apply r3
          rw [c2]
          have s1 := wellNamed_add ps (.date start) hw
          have s2 := wellNamed_add (ps ++ [("@p" ++ toString ps.length, BindVal.date start)])
            (.date stop) s1
          simp only [List.length_append, List.length_cons, List.length_nil,
            List.append_assoc, List.cons_append, List.nil_append, Nat.add_zero,
            Nat.zero_add] at s2 ⊢
          exact s2

lemma familySets_modes (q : BuilderQuery) :
    (familySets q).map (fun g => g.map Prod.fst) = famModeGroupsOf (buildShape q) := by
  have comp : ∀ (m : FamMode) (l : List String),
      (if l ≠ [] then [l.map (fun v => (m, v))] else []).map (fun g => g.map Prod.fst) =
        if l.length ≠ 0 then [List.replicate l.length m] else [] := by
    intro m l
    by_cases hl : l = []
    · subst hl; simp
    · rw [if_pos hl, if_pos (by simpa [List.length_eq_zero] using hl)]
      simp [List.map_map, Function.comp, List.map_const']
  unfold familySets famModeGroupsOf buildShape
  dsimp only
  rw [List.map_append, List.map_append, comp, comp, comp]

lemma familySets_sum (q : BuilderQuery) :
    ((familySets q).map List.length).sum =
      (buildShape q).famStarts + (buildShape q).famExact + (buildShape q).famContains := by
  unfold familySets buildShape
  dsimp only
  split_ifs <;> simp_all [List.length_eq_zero] <;> omega

lemma build_spec (b : PDQmWhereBuilder) (q : BuilderQuery) (r : String × ParamList)
    (h : PDQmWhereBuilder.build b q = .ok r) :
    r.1 = sqlOfShape b (buildShape q) ∧ WellNamed r.2 ∧
    r.2.length = (buildShape q).famStarts + (buildShape q).famExact +
      (buildShape q).famContains + (buildShape q).gender +
      2 * (buildShape q).birthPfxs.length := by
  obtain ⟨f1, f2, f3⟩ := famGroups_spec b.family_col (familySets q) []
  obtain ⟨g1, g2, g3⟩ := genderParts_spec b.gender_col (_flatten_values q.gender)
    (famGroups b.family_col (familySets q) []).2
  unfold PDQmWhereBuilder.build at h
  dsimp only at h
  cases hbp : birthParts b.birthdate_col (_flatten_values q.birthdate)
      (genderParts b.gender_col (_flatten_values q.gender)
        (famGroups b.family_col (familySets q) []).2).2 with
  | error e =>
    rw [hbp, ebind_error] at h
    exact absurd h (by simp)
  | ok bps =>
    rw [hbp, ebind_ok] at h
    obtain ⟨b1, b2, b3⟩ := birthParts_spec _ _ _ _ hbp
    injection h with h2
    have hfamlen : (famGroups b.family_col (familySets q) []).2.length =
        (buildShape q).famStarts + (buildShape q).famExact + (buildShape q).famContains := by
      rw [f2, familySets_sum]
      simp
    have hgenlen : (genderParts b.gender_col (_flatten_values q.gender)
        (famGroups b.family_col (familySets q) []).2).2.length =
        (buildShape q).famStarts + (buildShape q).famExact + (buildShape q).famContains +
          (buildShape q).gender := by
      rw [g2, hfamlen]
      rfl
    refine ⟨?_, ?_, ?_⟩
    · have cond1 : (familySets q ≠ []) = (famModeGroupsOf (buildShape q) ≠ []) := by
        rw [← familySets_modes]
        simp [List.map_eq_nil_iff]
      have cond2 : (_flatten_values q.gender ≠ []) = ((buildShape q).gender ≠ 0) := by
        simp [buildShape, List.length_eq_zero]
      have cond3 : (_flatten_values q.birthdate ≠ []) = ((buildShape q).birthPfxs ≠ []) := by
        simp [buildShape, List.map_eq_nil_iff]
      have hglen2 : (_flatten_values q.gender).length = (buildShape q).gender := rfl
      have hblen2 : (_flatten_values q.birthdate).map pfxOf = (buildShape q).birthPfxs := rfl
      rw [← h2]
      dsimp only
      unfold sqlOfShape
      dsimp only
      simp only [f1, g1, b1, hfamlen, hgenlen, familySets_modes, List.length_nil,
        Nat.zero_add, cond1, cond2, cond3, hglen2, hblen2]
    · rw [← h2]
      dsimp only
      exact b3 (g3 (f3 wellNamed_nil))
    · rw [← h2]
      dsimp only
      rw [b2, hgenlen]
      simp [buildShape]

/-! ## C3: birthdate AND/OR semantics -/

lemma matchDateReL_chars (l : List Char) (t : Nat × Option Nat × Option Nat)
    (hm : matchDateReL l = some t) : ∀ c ∈ l, c.isDigit = true ∨ c = '-' := by
  unfold matchDateReL at hm
  split at hm
  · rename_i a b c d
    split_ifs at hm with hc
    simp only [Bool.and_eq_true] at hc
    intro x hx
    simp only [List.mem_cons, List.not_mem_nil, or_false] at hx
    rcases hx with rfl | rfl | rfl | rfl <;> tauto
  · rename_i a b c d h e f
    split_ifs at hm with hc
    simp only [Bool.and_eq_true, beq_iff_eq] at hc
    intro x hx
    simp only [List.mem_cons, List.not_mem_nil, or_false] at hx
    rcases hx with rfl | rfl | rfl | rfl | rfl | rfl | rfl <;> tauto
  · rename_i a b c d h e f h2 g i
    split_ifs at hm with hc
    simp only [Bool.and_eq_true, beq_iff_eq] at hc
    intro x hx
    simp only [List.mem_cons, List.not_mem_nil, or_false] at hx
    rcases hx with rfl | rfl | rfl | rfl | rfl | rfl | rfl | rfl | rfl | rfl <;> tauto
  · exact absurd hm (by simp)

lemma comma_no_match (l : List Char) (h : ',' ∈ l) : matchDateReL l = none := by
  cases hm : matchDateReL l with
  | none => rfl
  | some t =>
    rcases matchDateReL_chars l t hm ',' h with hc | hc
    · exact absurd hc (by decide)
    · exact absurd hc (by decide)

lemma pfx_split_keeps_comma (s : String) (h : ',' ∈ s.data) :
    ',' ∈ ((_parse_date_with_pfx s).2).data := by
  unfold _parse_date_with_pfx
  split_ifs with hc
  · have hsplit : s.data = s.data.take 2 ++ s.data.drop 2 := (List.take_append_drop 2 s.data).symm
    rw [hsplit] at h
    rcases List.mem_append.mp h with h2 | h2
    · exfalso
      rcases hc.2 with ht | ht | ht | ht <;>
        · have : s.data.take 2 = (take2 s).data := rfl
          rw [this, ht] at h2
          exact absurd h2 (by decide)
    · exact h2
  · exact h

lemma birthdateFilters_comma (vs : List String) (v : String) (hv : v ∈ vs)
    (hc : ',' ∈ (pyStrip v).data) : ∃ msg, birthdateFilters vs = .error msg := by
  induction vs with
  | nil => exact absurd hv (by simp)
  | cons w rest ih =>
    unfold birthdateFilters
    dsimp only
    rcases List.mem_cons.mp hv with rfl | hv2
    · have hnone : _parse_fhir_date_bounds ((_parse_date_with_pfx (pyStrip v)).2) =
          .error ("Invalid FHIR date: " ++ (_parse_date_with_pfx (pyStrip v)).2) := by
        unfold _parse_fhir_date_bounds matchDateRe
        rw [comma_no_match _ (pfx_split_keeps_comma _ hc)]
      rw [hnone]
      exact ⟨_, rfl⟩
    · cases hp : _parse_fhir_date_bounds ((_parse_date_with_pfx (pyStrip w)).2) with
      | error e => exact ⟨_, rfl⟩
      | ok se =>
        obtain ⟨msg, hmsg⟩ := ih hv2
        rw [hmsg]
        exact ⟨msg, rfl⟩

lemma endpoint_pfx_five (s : String) :
    (_parse_date_with_pfx s).1 = "eq" ∨ (_parse_date_with_pfx s).1 = "ge" ∨
    (_parse_date_with_pfx s).1 = "le" ∨ (_parse_date_with_pfx s).1 = "gt" ∨
    (_parse_date_with_pfx s).1 = "lt" := by
  unfold _parse_date_with_pfx
  split_ifs with h
  · rcases h.2 with h2 | h2 | h2 | h2 <;> simp [h2]
  · simp

lemma birthPartsSql_length (col : String) :
    ∀ (ps : List String) (n : Nat), (birthPartsSql col ps n).length = ps.length := by
  intro ps
  induction ps with
  | nil => intro n; rfl
  | cons p rest ih =>
    intro n
    unfold birthPartsSql
    simp [ih]

lemma birthdateFilters_length :
    ∀ (vs : List String) (cs : List Cond), birthdateFilters vs = .ok cs →
      cs.length = vs.length := by
  intro vs
  induction vs with
  | nil =>
    intro cs h
    injection h with h2
    rw [← h2]
    rfl
  | cons v rest ih =>
    intro cs h
    unfold birthdateFilters at h
    dsimp only at h
    cases hp : _parse_fhir_date_bounds ((_parse_date_with_pfx (pyStrip v)).2) with
    | error e =>
      rw [hp] at h
      exact absurd h (by simp)
    | ok se =>
      rw [hp] at h
      dsimp only at h
      cases hr : birthdateFilters rest with
      | error e =>
        rw [hr, ebind_error] at h
        exact absurd h (by simp)
      | ok cs2 =>
        rw [hr, ebind_ok] at h
        injection h with h2
        rw [← h2]
        rcases endpoint_pfx_five (pyStrip v) with h5 | h5 | h5 | h5 | h5 <;>
          simp [h5, ih cs2 hr]


/-- C3, counterexample: the dates 1980 and 1990 each resolve on their own,
yet the endpoint rejects the comma-joined occurrence 1980,1990 with an
invalid-date error instead of OR-ing the two resolved conditions; and the
builder compiles two separate birthdate occurrences into one OR group
instead of AND-ing them. -/
theorem C3_comma_dates_rejected :
    _parse_fhir_date_bounds "1980" = .ok (⟨1980, 1, 1⟩, ⟨1981, 1, 1⟩) ∧
    _parse_fhir_date_bounds "1990" = .ok (⟨1990, 1, 1⟩, ⟨1991, 1, 1⟩) ∧
    birthdateFilters ["1980,1990"] = .error "Invalid birthdate: 1980,1990" ∧
    PDQmWhereBuilder.build {} ⟨none, none, none, none, some (.list ["1980", "1990"])⟩ =
      .ok ("WHERE ((p.BirthDate >= @p0 AND p.BirthDate < @p1) OR (p.BirthDate >= @p2 AND p.BirthDate < @p3))",
        [("@p0", .date ⟨1980, 1, 1⟩), ("@p1", .date ⟨1981, 1, 1⟩),
         ("@p2", .date ⟨1990, 1, 1⟩), ("@p3", .date ⟨1991, 1, 1⟩)]) :=
  ⟨rfl, rfl, rfl, rfl⟩

/-- C3 as amended: in the Patient search endpoint each birthdate occurrence
contributes exactly one condition and the accumulated filters are AND-ed,
but comma-separated date values are not split: any occurrence whose
stripped value contains a comma aborts the search with an invalid-date
error.  The standalone PDQmWhereBuilder does resolve comma-separated values
independently and ORs them, but it flattens all occurrences into that same
single OR group. -/
theorem C3_date_and_or_amended :
    (∀ (vs : List String) (cs : List Cond), birthdateFilters vs = .ok cs →
      cs.length = vs.length) ∧
    (∀ (r : SearchRequest) (fs : List Cond), patientFilters r = .ok fs → fs ≠ [] →
      patientWhere r = .ok (some (Cond.andN fs))) ∧
    (∀ (vs : List String) (v : String), v ∈ vs → ',' ∈ (pyStrip v).data →
      ∃ msg, birthdateFilters vs = .error msg) ∧
    (∀ (b : PDQmWhereBuilder) (vs : List String) (r : String × ParamList),
      _flatten_values (some (.list vs)) ≠ [] →
      PDQmWhereBuilder.build b ⟨none, none, none, none, some (.list vs)⟩ = .ok r →
      ∃ parts : List String × ParamList,
        birthParts b.birthdate_col (_flatten_values (some (.list vs))) [] = .ok parts ∧
        r.1 = "WHERE " ++ ("(" ++ String.intercalate " OR " parts.1 ++ ")") ∧
        parts.1.length = (_flatten_values (some (.list vs))).length) := by
  refine ⟨birthdateFilters_length, ?_, birthdateFilters_comma, ?_⟩
  · intro r fs hpf hne
    unfold patientWhere
    rw [hpf]
    have : fs.isEmpty = false := by
      cases fs with
      | nil => exact absurd rfl hne
      | cons a l => rfl
    simp [Except.map, this]
  · intro b vs r hne h
    unfold PDQmWhereBuilder.build at h
    have hsets : familySets ⟨none, none, none, none, some (.list vs)⟩ = [] := rfl
    rw [hsets] at h
    dsimp only at h
    simp only [show _flatten_values (none : Option QVal) = [] from rfl, ne_eq,
      not_true_eq_false, if_false, List.nil_append,
      show (genderParts b.gender_col [] (famGroups b.family_col [] []).2).2 = [] from rfl] at h
    cases hbp : birthParts b.birthdate_col (_flatten_values (some (.list vs))) [] with
    | error e =>
      rw [hbp, ebind_error] at h
      exact absurd h (by simp)
    | ok parts =>
      rw [hbp, ebind_ok] at h
      injection h with h2
      obtain ⟨p1, p2, p3⟩ := birthParts_spec b.birthdate_col _ _ _ hbp
      refine ⟨parts, rfl, ?_, ?_⟩
      · rw [← h2]
        dsimp only
        rw [if_pos (show ¬ _flatten_values (some (QVal.list vs)) = [] by simpa using hne)]
        rw [if_pos (show ¬ (["(" ++ String.intercalate " OR " parts.1 ++ ")"] :
          List String) = [] by simp)]
        rfl
      · rw [p1, birthPartsSql_length]
        simp

/-- C3 witness: the amended theorem applied to the builder with two
birthdate occurrences 1980 and 1990. -/
theorem C3_witness :
    ∃ parts : List String × ParamList,
      birthParts "p.BirthDate" (_flatten_values (some (.list ["1980", "1990"]))) [] =
        .ok parts ∧
      ("WHERE ((p.BirthDate >= @p0 AND p.BirthDate < @p1) OR (p.BirthDate >= @p2 AND p.BirthDate < @p3))" : String) =
        "WHERE " ++ ("(" ++ String.intercalate " OR " parts.1 ++ ")") ∧
      parts.1.length = (_flatten_values (some (.list ["1980", "1990"]))).length :=
  C3_date_and_or_amended.2.2.2 {} ["1980", "1990"]
    ("WHERE ((p.BirthDate >= @p0 AND p.BirthDate < @p1) OR (p.BirthDate >= @p2 AND p.BirthDate < @p3))",
      [("@p0", .date ⟨1980, 1, 1⟩), ("@p1", .date ⟨1981, 1, 1⟩),
       ("@p2", .date ⟨1990, 1, 1⟩), ("@p3", .date ⟨1991, 1, 1⟩)])
    (by decide) rfl

/-! ## C5: SQL-injection safety as noninterference -/

/-- C5, counterexample: two builder queries with the same parameter names,
modifiers and per-occurrence value counts (one birthdate value each)
produce different SQL texts, because the SQL depends on the date prefix
parsed out of the value. -/
theorem C5_sql_depends_on_date_pfx :
    PDQmWhereBuilder.build {} ⟨none, none, none, none, some (.str "1980")⟩ =
      .ok ("WHERE ((p.BirthDate >= @p0 AND p.BirthDate < @p1))",
        [("@p0", .date ⟨1980, 1, 1⟩), ("@p1", .date ⟨1981, 1, 1⟩)]) ∧
    PDQmWhereBuilder.build {} ⟨none, none, none, none, some (.str "lt1980")⟩ =
      .ok ("WHERE (p.BirthDate < @p0)",
        [("@p0", .date ⟨1980, 1, 1⟩), ("@p1", .date ⟨1981, 1, 1⟩)]) ∧
    (_flatten_values (some (.str "1980"))).length =
      (_flatten_values (some (.str "lt1980"))).length ∧
    ("WHERE ((p.BirthDate >= @p0 AND p.BirthDate < @p1))" : String) ≠
      "WHERE (p.BirthDate < @p0)" :=
  ⟨rfl, rfl, rfl, by decide⟩

/-- C5 as amended: when additionally the parsed date prefix of every
birthdate value is equal (the build shape agrees), two successful builds
emit character-for-character identical SQL; the SQL text is a function of
the shape alone, and the bind parameters are named @p0, @p1, ... in
positional order, so every user-supplied value reaches the output only
through the bind list. -/
theorem C5_noninterference_amended (b : PDQmWhereBuilder) (q1 q2 : BuilderQuery)
    (r1 r2 : String × ParamList)
    (h1 : PDQmWhereBuilder.build b q1 = .ok r1)
    (h2 : PDQmWhereBuilder.build b q2 = .ok r2)
    (hsh : buildShape q1 = buildShape q2) :
    r1.1 = sqlOfShape b (buildShape q1) ∧
    r1.1 = r2.1 ∧
    (∀ i (hi : i < r1.2.length), (r1.2.get ⟨i, hi⟩).1 = "@p" ++ toString i) := by
  obtain ⟨s1, w1, l1⟩ := build_spec b q1 r1 h1
  obtain ⟨s2, w2, l2⟩ := build_spec b q2 r2 h2
  refine ⟨s1, ?_, ?_⟩
  · rw [s1, s2, hsh]
  · intro i hi
    have hq : (r1.2.map Prod.fst)[i]? =
        ((List.range r1.2.length).map (fun j => "@p" ++ toString j))[i]? := by rw [w1]
    rw [List.getElem?_map, List.getElem?_map, List.getElem?_range hi,
      List.getElem?_eq_getElem hi] at hq
    simp only [Option.map_some'] at hq
    injection hq

/-- C5 witness: the amended theorem applied to two gender-only queries M
and F, which share a shape. -/
theorem C5_witness :
    (("WHERE (p.GenderCode COLLATE Latin1_General_CI_AI = @p0)",
        [("@p0", BindVal.str "m")]) : String × ParamList).1 =
      (("WHERE (p.GenderCode COLLATE Latin1_General_CI_AI = @p0)",
        [("@p0", BindVal.str "f")]) : String × ParamList).1 :=
  (C5_noninterference_amended {} ⟨none, none, none, some (.str "M"), none⟩
    ⟨none, none, none, some (.str "F"), none⟩ _ _ rfl rfl rfl).2.1
/-! ## C4: collation of string comparisons -/

/-- C4, counterexample: the comparison the builder emits for an exact
family match carries the Latin1_General_CI_AI collation, whose AI part is
accent-insensitive: under its modelled semantics the values Jose and
José compare equal, contradicting the accent-sensitivity the claim
requires of every emitted comparison.  (The lower()-based comparison the
endpoint emits is accent-sensitive, as the claim says.) -/
theorem C4_builder_collation_accent_insensitive :
    _sql_equals_ci "p.FamilyName" "José" [] =
      ("p.FamilyName COLLATE Latin1_General_CI_AI = @p0", [("@p0", .str "José")]) ∧
    latin1CiAiEq "José" "Jose" = true ∧
    pyLowerEq "José" "Jose" = false :=
  ⟨rfl, by decide, by decide⟩

/-- C4 as amended: the comparisons emitted by the Patient search endpoint
(lower() against lower()) are case-insensitive and accent-sensitive, as
claimed; but every comparison the PDQmWhereBuilder emits carries the
COLLATE Latin1_General_CI_AI clause, which is case- and accent-insensitive,
so in the builder José and Jose do compare equal. -/
theorem C4_collation_amended :
    (∀ (col v : String) (params : ParamList), _sql_equals_ci col v params =
      (col ++ " COLLATE Latin1_General_CI_AI = " ++ ("@p" ++ toString params.length),
       params ++ [("@p" ++ toString params.length, .str v)])) ∧
    (∀ (col v : String) (params : ParamList), _sql_like_startswith col v params =
      (col ++ " COLLATE Latin1_General_CI_AI LIKE " ++ ("@p" ++ toString params.length),
       params ++ [("@p" ++ toString params.length, .str (v ++ "%"))])) ∧
    (∀ (col v : String) (params : ParamList), _sql_like_contains col v params =
      (col ++ " COLLATE Latin1_General_CI_AI LIKE " ++ ("@p" ++ toString params.length),
       params ++ [("@p" ++ toString params.length, .str ("%" ++ v ++ "%"))])) ∧
    latin1CiAiEq "ABC" "abc" = true ∧
    latin1CiAiEq "José" "Jose" = true ∧
    pyLowerEq "ABC" "abc" = true ∧
    pyLowerEq "JOSÉ" "josé" = true ∧
    pyLowerEq "José" "Jose" = false :=
  ⟨fun col v params => rfl, fun col v params => rfl, fun col v params => rfl,
    by decide, by decide, by decide, by decide, by decide⟩
/-! ## C6: identifier compilation -/

/-- C6: identifier token compilation.  For an occurrence containing a pipe,
the left side comma-splits into systems and the right side into values;
with both non-empty the clause is the OR over the cross product of exact
case-insensitive system|value equalities; with no values (domain-only
query) it is the OR of starts-with system| patterns, one per system and
never an exact match; and a bare occurrence compiles, per comma-separated
value, to equality with the value OR an ends-with |value match. -/
theorem C6_identifier_compilation (v : String) :
    (hasPipe v = true → cleanTokens (splitPipe v).2 ≠ [] → cleanTokens (splitPipe v).1 ≠ [] →
      identifierOrGroup v =
        (cleanTokens (splitPipe v).2).flatMap fun val =>
          (cleanTokens (splitPipe v).1).map fun sys =>
            Cond.lowerEq "identifier" (sys ++ "|" ++ val)) ∧
    (hasPipe v = true → cleanTokens (splitPipe v).2 = [] → cleanTokens (splitPipe v).1 ≠ [] →
      identifierOrGroup v =
        (cleanTokens (splitPipe v).1).map fun sys =>
          Cond.lowerLike "identifier" (sys ++ "|%")) ∧
    (hasPipe v = true → cleanTokens (splitPipe v).2 = [] →
      ∀ c ∈ identifierOrGroup v, ∃ sys,
        c = Cond.lowerLike "identifier" (sys ++ "|%")) ∧
    (hasPipe v = false → identifierOrGroup v =
      (cleanTokens v).flatMap fun val =>
        [Cond.lowerEq "identifier" val, Cond.lowerLike "identifier" ("%|" ++ val)]) := by
  refine ⟨?_, ?_, ?_, ?_⟩
  · intro hp hval hsys
    unfold identifierOrGroup
    rw [if_pos hp, if_pos hval, if_pos hsys]
  · intro hp hval hsys
    unfold identifierOrGroup
    rw [if_pos hp, if_neg (by simp [hval]), if_pos hsys]
  · intro hp hval c hc
    unfold identifierOrGroup at hc
    rw [if_pos hp, if_neg (by simp [hval])] at hc
    split_ifs at hc with hsys
    · obtain ⟨sys, hsysmem, heq⟩ := List.mem_map.mp hc
      exact ⟨sys, heq.symm⟩
    · exact absurd hc (by simp)
  · intro hp
    unfold identifierOrGroup
    rw [if_neg (by simp [hp])]

/-- C6 witness: the theorem applied to the domain-only occurrence
sysA,sysB| and to the bare occurrence bare. -/
theorem C6_witness :
    identifierOrGroup "sysA,sysB|" =
      [Cond.lowerLike "identifier" "sysa|%", Cond.lowerLike "identifier" "sysb|%"] ∧
    identifierOrGroup "bare" =
      [Cond.lowerEq "identifier" "bare", Cond.lowerLike "identifier" "%|bare"] :=
  ⟨(C6_identifier_compilation "sysA,sysB|").2.1 rfl rfl (by decide),
   (C6_identifier_compilation "bare").2.2.2 rfl⟩
/-! ## C7: LDAP filter compilation lemmas -/

lemma replaceChar_flatMap (c : Char) (rep : List Char) (l : List Char) :
    replaceChar c rep l = l.flatMap (fun x => if x = c then rep else [x]) := by
  induction l with
  | nil => rfl
  | cons x rest ih => simp [replaceChar, ih, List.flatMap_cons]

lemma flatMap_flatMap2 (l : List α) (f : α → List β) (g : β → List γ) :
    (l.flatMap f).flatMap g = l.flatMap fun a => (f a).flatMap g := by
  induction l with
  | nil => rfl
  | cons x rest ih => simp [List.flatMap_cons, List.flatMap_append, ih]

lemma escChar_ne_nil (c : Char) : escChar c ≠ [] := by
  unfold escChar
  split_ifs <;> simp

lemma escape_data (s : String) : (_escape_ldap_filter s).data = s.data.flatMap escChar := by
  show (replaceChar (Char.ofNat 0) ['\\', '0', '0']
    (replaceChar ')' ['\\', '2', '9']
      (replaceChar '(' ['\\', '2', '8']
        (replaceChar '*' ['\\', '2', 'a']
          (replaceChar '\\' ['\\', '5', 'c'] s.data))))) = s.data.flatMap escChar
  rw [replaceChar_flatMap, replaceChar_flatMap, replaceChar_flatMap, replaceChar_flatMap,
    replaceChar_flatMap, flatMap_flatMap2, flatMap_flatMap2, flatMap_flatMap2,
    flatMap_flatMap2]
  congr 1
  funext c
  by_cases h1 : c = '\\'
  · subst h1; decide
  by_cases h2 : c = '*'
  · subst h2; decide
  by_cases h3 : c = '('
  · subst h3; decide
  by_cases h4 : c = ')'
  · subst h4; decide
  by_cases h5 : c = Char.ofNat 0
  · subst h5; decide
  simp [escChar, h1, h2, h3, h4, h5]

lemma escape_empty_iff (s : String) : _escape_ldap_filter s = "" ↔ s = "" := by
  constructor
  · intro h
    have hd := congrArg String.data h
    rw [escape_data] at hd
    cases hs : s.data with
    | nil =>
      cases s with
      | mk d => simp_all
    | cons c rest =>
      rw [hs] at hd
      simp only [List.flatMap_cons] at hd
      exact absurd (List.append_eq_nil.mp hd).1 (escChar_ne_nil c)
  · intro h
    subst h
    rfl
/-- C7: LDAP filter compilation.  The escaper maps backslash, star, the two
parentheses and NUL to the RFC 4515 escapes, character by character; an
empty (after strip) query compiles to the list-all filter of its scope, and
a non-empty query embeds the escaped stripped text Q into the four-field
substring disjunction of its scope.  The compiler is a pure function of the
query and scope. -/
theorem C7_ldap_filter_compilation (q s : String) :
    (_escape_ldap_filter s).data = s.data.flatMap escChar ∧
    escChar '\\' = ['\\', '5', 'c'] ∧
    escChar '*' = ['\\', '2', 'a'] ∧
    escChar '(' = ['\\', '2', '8'] ∧
    escChar ')' = ['\\', '2', '9'] ∧
    escChar (Char.ofNat 0) = ['\\', '0', '0'] ∧
    _make_filter q "person" =
      (if pyStrip q = "" then "(&(objectClass=inetOrgPerson))"
       else
         "(&(objectClass=inetOrgPerson)(|(cn=*" ++ _escape_ldap_filter (pyStrip q) ++
           "*)(sn=*" ++ _escape_ldap_filter (pyStrip q) ++ "*)(givenName=*" ++
           _escape_ldap_filter (pyStrip q) ++ "*)(mail=*" ++
           _escape_ldap_filter (pyStrip q) ++ "*)))") ∧
    _make_filter q "org" =
      (if pyStrip q = "" then "(objectClass=*)"
       else
         "(&(objectClass=*)(|(o=*" ++ _escape_ldap_filter (pyStrip q) ++ "*)(ou=*" ++
           _escape_ldap_filter (pyStrip q) ++ "*)(cn=*" ++
           _escape_ldap_filter (pyStrip q) ++ "*)(mail=*" ++
           _escape_ldap_filter (pyStrip q) ++ "*)))") := by
  refine ⟨escape_data s, by decide, by decide, by decide, by decide, by decide, ?_, ?_⟩
  · unfold _make_filter
    by_cases he : pyStrip q = ""
    · rw [if_pos he, if_pos ((escape_empty_iff (pyStrip q)).mpr he), if_pos rfl]
    · rw [if_neg he, if_neg (fun hc => he ((escape_empty_iff (pyStrip q)).mp hc)),
        if_pos rfl]
  · unfold _make_filter
    by_cases he : pyStrip q = ""
    · rw [if_pos he, if_pos ((escape_empty_iff (pyStrip q)).mpr he),
        if_neg (by decide : ¬ ("org" : String) = "person")]
    · rw [if_neg he, if_neg (fun hc => he ((escape_empty_iff (pyStrip q)).mp hc)),
        if_neg (by decide : ¬ ("org" : String) = "person")]
/-! ## C8: base DN discovery and caching -/

/-- C8: RootDSE disambiguation prefers the first namingContexts value that
is case-insensitively dc=HPD and falls back to the first value; the
discovered-base cache starts unset, a successful discovery writes it once
and later calls only read it (the result no longer depends on the RootDSE
answer), and a failed discovery leaves the cache unset and raises the
upstream-unavailable error, so the next call re-attempts discovery. -/
theorem C8_base_dn_discovery_caching :
    (∀ (vals : List String) (c : String),
      vals.find? (fun v => pyLower v = "dc=hpd") = some c →
      _discover_base_dn (some vals) = some c) ∧
    (∀ (v0 : String) (rest : List String),
      (v0 :: rest).find? (fun v => pyLower v = "dc=hpd") = none →
      _discover_base_dn (some (v0 :: rest)) = some v0) ∧
    initialDiscoveredBase = none ∧
    (∀ (baseDn b : String) (res : Option (List String)), pyLower baseDn = "auto" →
      _discover_base_dn res = some b → b ≠ "" →
      _resolve_base_root baseDn none res = (.ok b, some b)) ∧
    (∀ (baseDn c : String) (res res2 : Option (List String)),
      pyLower baseDn = "auto" → c ≠ "" →
      _resolve_base_root baseDn (some c) res = (.ok c, some c) ∧
      _resolve_base_root baseDn (some c) res = _resolve_base_root baseDn (some c) res2) ∧
    (∀ (baseDn : String) (res : Option (List String)), pyLower baseDn = "auto" →
      pyTruthy (_discover_base_dn res) = false →
      (_resolve_base_root baseDn none res).1 =
        .error "Kon namingContexts (root) niet bepalen." ∧
      pyTruthy (_resolve_base_root baseDn none res).2 = false) ∧
    (∀ (baseDn : String) (cache : Option String) (res : Option (List String)),
      pyLower baseDn = "auto" → pyTruthy cache = false →
      _resolve_base_root baseDn cache res = _resolve_base_root baseDn none res) := by
  have hskip : ∀ baseDn : String, pyLower baseDn = "auto" →
      ¬ (baseDn ≠ "" ∧ pyLower baseDn ≠ "auto") := fun baseDn ha hc => hc.2 ha
  refine ⟨?_, ?_, rfl, ?_, ?_, ?_, ?_⟩
  · intro vals c hf
    cases vals with
    | nil => exact absurd hf (by simp)
    | cons v0 rest =>
      cases rest with
      | nil =>
        by_cases hp : pyLower v0 = "dc=hpd"
        · have hfind : List.find? (fun v => pyLower v = "dc=hpd") [v0] = some v0 := by
            simp [List.find?, hp]
          rw [hfind] at hf
          have hv : v0 = c := by injection hf
          rw [← hv]
          rfl
        · have hfind : List.find? (fun v => pyLower v = "dc=hpd") [v0] = none := by
            simp [List.find?, hp]
          rw [hfind] at hf
          exact absurd hf (by simp)
      | cons v1 rest2 =>
        unfold _discover_base_dn
        dsimp only
        rw [hf]
        rfl
  · intro v0 rest hf
    cases rest with
    | nil => rfl
    | cons v1 rest2 =>
      unfold _discover_base_dn
      dsimp only
      rw [hf]
      rfl
  · intro baseDn b res ha hd hb
    unfold _resolve_base_root
    rw [if_neg (hskip baseDn ha)]
    have : pyTruthy none = false := rfl
    rw [this]
    simp only [Bool.false_eq_true, if_false, hd]
    have : pyTruthy (some b) = true := by simp [pyTruthy, hb]
    rw [this]
    rfl
  · intro baseDn c res res2 ha hc
    have hres : ∀ r : Option (List String),
        _resolve_base_root baseDn (some c) r = (.ok c, some c) := by
      intro r
      unfold _resolve_base_root
      rw [if_neg (hskip baseDn ha)]
      have : pyTruthy (some c) = true := by simp [pyTruthy, hc]
      rw [this]
      rfl
    exact ⟨hres res, (hres res).trans (hres res2).symm⟩
  · intro baseDn res ha hd
    unfold _resolve_base_root
    rw [if_neg (hskip baseDn ha)]
    have hn : pyTruthy none = false := rfl
    rw [hn]
    dsimp only
    rw [hd]
    exact ⟨rfl, hd⟩
  · intro baseDn cache res ha hc
    unfold _resolve_base_root
    rw [if_neg (hskip baseDn ha), if_neg (hskip baseDn ha), hc]
    rfl

/-- C8 witness: the theorem applied to the RootDSE answer
[dc=example, dc=HPD] with base DN auto, and to a failed discovery. -/
theorem C8_witness :
    _discover_base_dn (some ["dc=example", "dc=HPD"]) = some "dc=HPD" ∧
    _resolve_base_root "auto" none (some ["dc=example", "dc=HPD"]) =
      (.ok "dc=HPD", some "dc=HPD") ∧
    _resolve_base_root "auto" (some "dc=HPD") none =
      _resolve_base_root "auto" (some "dc=HPD") (some ["dc=other"]) ∧
    (_resolve_base_root "auto" none none).1 =
      .error "Kon namingContexts (root) niet bepalen." :=
  ⟨(C8_base_dn_discovery_caching).1 ["dc=example", "dc=HPD"] "dc=HPD" (by decide),
   (C8_base_dn_discovery_caching).2.2.2.1 "auto" "dc=HPD" (some ["dc=example", "dc=HPD"])
     (by decide) ((C8_base_dn_discovery_caching).1 ["dc=example", "dc=HPD"] "dc=HPD"
       (by decide)) (by decide),
   ((C8_base_dn_discovery_caching).2.2.2.2.1 "auto" "dc=HPD" none (some ["dc=other"])
     (by decide) (by decide)).2,
   ((C8_base_dn_discovery_caching).2.2.2.2.2.1 "auto" none (by decide) (by decide)).1⟩
/-! ## C9: empty and whitespace-only values -/

lemma flatMap_nil_of_forall (l : List α) (f : α → List β) (h : ∀ x ∈ l, f x = []) :
    l.flatMap f = [] := by
  induction l with
  | nil => rfl
  | cons x rest ih =>
    rw [List.flatMap_cons, h x (by simp), ih (fun y hy => h y (by simp [hy]))]
    rfl

/-- C9, counterexample: in the Patient search endpoint a whitespace-only
gender value is not dropped; it contributes an OR group comparing the
gender column against the empty string, while an empty value contributes
nothing -- so a whitespace-only value does produce a filter clause,
contrary to the claim. -/
theorem C9_whitespace_gender_contributes :
    genderFilters [" "] = [Cond.orN [Cond.lowerEq "gender" ""]] ∧
    genderFilters [""] = [] :=
  ⟨rfl, rfl⟩

/-- C9 as amended: empty comma segments contribute nothing in the endpoint,
and the PDQmWhereBuilder drops every value that is empty or whitespace-only
after trimming, so a builder query whose values all normalize away compiles
to the empty WHERE clause with no parameters; a request whose sections
yield no filters compiles to no WHERE clause at all (matches every row).
In the endpoint, however, whitespace-only values survive (the
counterexample) and an empty birthdate value fails with InvalidDate. -/
theorem C9_empty_values_amended :
    (∀ s : String, "" ∉ _split_or_list s) ∧
    (genderFilters [""] = [] ∧ idFilters [""] = [] ∧ telecomFilters [""] = [] ∧
      identifierFilters [""] = [] ∧ famFilters [(false, "")] = [] ∧
      famFilters [(true, "")] = []) ∧
    (∀ qv : Option QVal, ∀ v ∈ _flatten_values qv, v ≠ "") ∧
    (∀ s : String, (∀ seg ∈ pySplitComma s, pyStrip seg = "") →
      _flatten_values (some (.str s)) = []) ∧
    (∀ (b : PDQmWhereBuilder) (q : BuilderQuery),
      familySets q = [] → _flatten_values q.gender = [] →
      _flatten_values q.birthdate = [] →
      PDQmWhereBuilder.build b q = .ok ("", [])) ∧
    (∀ r : SearchRequest, patientFilters r = .ok [] → patientWhere r = .ok none) ∧
    birthdateFilters [""] = .error "Invalid birthdate: " := by
  refine ⟨?_, ⟨rfl, rfl, rfl, rfl, rfl, rfl⟩, ?_, ?_, ?_, ?_, rfl⟩
  · intro s hmem
    simp [_split_or_list, List.mem_filter] at hmem
  · intro qv v hv
    cases qv with
    | none => exact absurd hv (by simp [_flatten_values])
    | some w =>
      cases w with
      | str s =>
        simp only [_flatten_values, splitClean, List.mem_filter] at hv
        simpa using hv.2
      | list l =>
        simp only [_flatten_values, List.mem_flatMap, splitClean] at hv
        obtain ⟨s, _, hs⟩ := hv
        rw [List.mem_filter] at hs
        simpa using hs.2
  · intro s hseg
    unfold _flatten_values splitClean
    rw [List.filter_eq_nil_iff]
    intro a ha
    rw [List.mem_map] at ha
    obtain ⟨seg, hm, hstrip⟩ := ha
    simp [← hstrip, hseg seg hm]
  · intro b q hsets hg hb
    unfold PDQmWhereBuilder.build
    rw [hsets, hg, hb]
    rfl
  · intro r h
    unfold patientWhere
    rw [h]
    rfl

/-- C9 witness: the amended theorem applied to a builder query whose values
are all empty or whitespace-only, and to a request with one empty gender
occurrence. -/
theorem C9_witness :
    PDQmWhereBuilder.build {}
      ⟨some (.str "  "), none, none, some (.str " , "), some (.str " ")⟩ =
      .ok ("", []) ∧
    patientWhere { genderOccs := [""] } = .ok none :=
  ⟨C9_empty_values_amended.2.2.2.2.1 {}
      ⟨some (.str "  "), none, none, some (.str " , "), some (.str " ")⟩ rfl rfl rfl,
   C9_empty_values_amended.2.2.2.2.2.1 { genderOccs := [""] } rfl⟩
/-! ## C10: unrecognized telecom system -/

/-- C10: a telecom token of the form system|value whose trimmed, lowered
system is neither phone nor email contributes no condition; an occurrence
in which every token has such a system adds no filter, and a search whose
telecom occurrences all consist of such tokens produces exactly the
filters it would produce with the telecom parameter absent. -/
theorem C10_unknown_telecom_system :
    (∀ token : String, hasPipe token = true →
      pyLower (pyStrip (splitPipe token).1) ≠ "phone" →
      pyLower (pyStrip (splitPipe token).1) ≠ "email" →
      telecomTokenConds token = []) ∧
    (∀ occs : List String,
      (∀ v ∈ occs, ∀ t ∈ _split_or_list v, hasPipe t = true ∧
        pyLower (pyStrip (splitPipe t).1) ≠ "phone" ∧
        pyLower (pyStrip (splitPipe t).1) ≠ "email") →
      telecomFilters occs = []) ∧
    (∀ r : SearchRequest,
      (∀ v ∈ r.telecomOccs, ∀ t ∈ _split_or_list v, hasPipe t = true ∧
        pyLower (pyStrip (splitPipe t).1) ≠ "phone" ∧
        pyLower (pyStrip (splitPipe t).1) ≠ "email") →
      patientFilters r = patientFilters
        { idOccs := r.idOccs, genderOccs := r.genderOccs, familyOccs := r.familyOccs,
          telecomOccs := [], identifierOccs := r.identifierOccs,
          birthdateOccs := r.birthdateOccs }) := by
  have htok : ∀ token : String, hasPipe token = true →
      pyLower (pyStrip (splitPipe token).1) ≠ "phone" →
      pyLower (pyStrip (splitPipe token).1) ≠ "email" →
      telecomTokenConds token = [] := by
    intro token hp hph hem
    unfold telecomTokenConds
    rw [if_pos hp]
    dsimp only
    rw [if_neg hph, if_neg hem]
  have hocc : ∀ occs : List String,
      (∀ v ∈ occs, ∀ t ∈ _split_or_list v, hasPipe t = true ∧
        pyLower (pyStrip (splitPipe t).1) ≠ "phone" ∧
        pyLower (pyStrip (splitPipe t).1) ≠ "email") →
      telecomFilters occs = [] := by
    intro occs h
    unfold telecomFilters
    apply flatMap_nil_of_forall
    intro v hv
    have hg : (_split_or_list v).flatMap telecomTokenConds = [] := by
      apply flatMap_nil_of_forall
      intro t ht
      obtain ⟨h1, h2, h3⟩ := h v hv t ht
      exact htok t h1 h2 h3
    rw [hg]
    rfl
  refine ⟨htok, hocc, ?_⟩
  intro r h
  unfold patientFilters
  rw [hocc r.telecomOccs h]
  rfl

/-- C10 witness: the theorem applied to the token fax|123 and to a request
whose only telecom occurrence is that token next to a gender parameter. -/
theorem C10_witness :
    telecomTokenConds "fax|123" = [] ∧
    patientFilters { genderOccs := ["male"], telecomOccs := ["fax|123"] } =
      patientFilters
        { idOccs := [], genderOccs := ["male"], familyOccs := [], telecomOccs := [],
          identifierOccs := [], birthdateOccs := [] } :=
  ⟨C10_unknown_telecom_system.1 "fax|123" rfl (by decide) (by decide),
   C10_unknown_telecom_system.2.2 { genderOccs := ["male"], telecomOccs := ["fax|123"] }
     (by
       intro v hv t ht
       simp only [List.mem_singleton] at hv
       subst hv
       simp only [show _split_or_list "fax|123" = ["fax|123"] from rfl,
         List.mem_singleton] at ht
       subst ht
       exact ⟨rfl, by decide, by decide⟩)⟩
